import Mathlib

/-!
Verification of the terminal session connection manager of
`claude-code-gui` (shallow embedding of `src/hooks/use-pty.ts`,
`src/store/terminal-store.ts` and the `usePtyConnection` /
`TerminalPanel` consumers) against its natural-language specification.
-/

namespace Pty

/-- Connection status, from `terminal-store.ts`:
`disconnected | connecting | connected | error`. -/
inductive ConnectionStatus
  | disconnected
  | connecting
  | connected
  | error
deriving DecidableEq, Repr

/-- The session-relevant part of the terminal store plus the hook's
`sessionIdRef` (`use-pty.ts` keeps the id both in the zustand store and in a
React ref; all writes update both, except that the ref is the one consulted
by `write`/`resize`/`kill`). -/
structure PtyState where
  sessionId : Option String
  connectionStatus : ConnectionStatus
  sessionIdRef : Option String
deriving DecidableEq, Repr

/-- Initial store state (`terminal-store.ts`: `sessionId: null`,
`connectionStatus: disconnected`; the ref starts `null`). -/
def initState : PtyState :=
  { sessionId := none, connectionStatus := .disconnected, sessionIdRef := none }

/-- Events delivered on the per-spawn channel (`PtyEvent` in the tauri
bindings): `Output(data: int[])`, `Exit(code: int|null)`, `Error(message)`. -/
inductive PtyEvent
  | Output (data : List Nat)
  | Exit (code : Option Int)
  | Error (message : String)

/-- What one run of the channel `onmessage` handler produces: the updated
session state, the payload passed to the `onData` callback (if any), and the
code passed to the `onExit` callback (if any). -/
structure HandlerResult where
  state : PtyState
  dataOut : Option (List Nat)
  exitOut : Option (Option Int)
deriving DecidableEq, Repr

/-- The channel `onmessage` handler installed by `spawn`
(`use-pty.ts` lines 43-54):
`Output` forwards the bytes to `onData` and touches no state; `Exit` sets
status `disconnected`, clears the store id and the ref, and notifies
`onExit`; `Error` sets status `error` (and nothing else). -/
def channelOnMessage (s : PtyState) (e : PtyEvent) : HandlerResult :=
  match e with
  | .Output d => { state := s, dataOut := some d, exitOut := none }
  | .Exit code =>
      { state := { s with connectionStatus := .disconnected,
                          sessionId := none, sessionIdRef := none },
        dataOut := none, exitOut := some code }
  | .Error _ => { state := { s with connectionStatus := .error },
                  dataOut := none, exitOut := none }

/-- State after processing a list of channel events in arrival order. -/
def processEvents (s : PtyState) (es : List PtyEvent) : PtyState :=
  es.foldl (fun acc e => (channelOnMessage acc e).state) s

/-- Result of the `ptySpawn` command: `ok` with the new session id, or an
error. -/
inductive SpawnResult
  | ok (id : String)
  | err (message : String)

/-- First synchronous part of `spawn` (`use-pty.ts` line 40):
`setConnectionStatus('connecting')`. -/
def spawnStart (s : PtyState) : PtyState :=
  { s with connectionStatus := .connecting }

/-- The continuation after `await commands.ptySpawn` resolves
(`use-pty.ts` lines 56-63): on `ok` it sets the ref, the store id and status
`connected`, unconditionally; on failure it sets status `error`. -/
def spawnResolve (s : PtyState) (r : SpawnResult) : PtyState :=
  match r with
  | .ok id => { s with sessionIdRef := some id, sessionId := some id,
                       connectionStatus := .connected }
  | .err _ => { s with connectionStatus := .error }

/-- One complete execution of `spawn` in which the events `es` are fully
processed by the channel handler before the spawn call resolves with `r`. -/
def spawnRun (s : PtyState) (es : List PtyEvent) (r : SpawnResult) : PtyState :=
  spawnResolve (processEvents (spawnStart s) es) r

/-- `handleSessionLost` (`use-pty.ts` lines 66-71): clear the ref, the store
id, and set status `disconnected`. -/
def handleSessionLost (s : PtyState) : PtyState :=
  { s with sessionIdRef := none, sessionId := none,
           connectionStatus := .disconnected }

/-- Error shape of the `ptyWrite`/`ptyResize`/`ptyKill` commands:
`{type: 'SessionNotFound' | other, message}`. -/
structure CmdError where
  type : String
  message : String
deriving DecidableEq, Repr

/-- Result of a `ptyWrite`/`ptyResize`/`ptyKill` command. -/
inductive CmdResult
  | ok
  | err (e : CmdError)

/-- An outbound command issued to the backing process. -/
inductive OutboundCall
  | ptyWrite (id : String) (bytes : List Nat)
  | ptyResize (id : String) (cols rows : Nat)
  | ptyKill (id : String)
deriving DecidableEq, Repr

/-- UTF-8 encoding of one code point (the `TextEncoder` used by `write`).
Modelled from the spec: the encoder is the platform `TextEncoder`, whose
code is not part of this repository; this follows the standard UTF-8
encoding scheme the spec's byte-codec contract refers to. -/
def utf8EncodeChar (n : Nat) : List Nat :=
  if n < 0x80 then [n]
  else if n < 0x800 then [0xC0 + n / 64, 0x80 + n % 64]
  else if n < 0x10000 then
    [0xE0 + n / 4096, 0x80 + (n / 64) % 64, 0x80 + n % 64]
  else
    [0xF0 + n / 0x40000, 0x80 + (n / 4096) % 64, 0x80 + (n / 64) % 64,
     0x80 + n % 64]

/-- UTF-8 encoding of a string, code point by code point. -/
def encodeUtf8 (s : String) : List Nat :=
  (s.data.map (fun c => utf8EncodeChar c.toNat)).flatten

/-- Synchronous part of `write` (`use-pty.ts` lines 73-90): if the ref holds
no id, return without issuing any call or touching any state; otherwise
encode the text and issue `ptyWrite`. The state is returned unchanged in
both cases (the response is handled later by `writeResponse`). -/
def write (s : PtyState) (data : String) : PtyState × Option OutboundCall :=
  match s.sessionIdRef with
  | none => (s, none)
  | some id => (s, some (.ptyWrite id (encodeUtf8 data)))

/-- The `.then` continuation of the `ptyWrite` command (`use-pty.ts` lines
80-87): a `SessionNotFound` error triggers `handleSessionLost`; any other
error is only logged; success changes nothing. -/
def writeResponse (s : PtyState) (r : CmdResult) : PtyState :=
  match r with
  | .ok => s
  | .err e => if e.type = "SessionNotFound" then handleSessionLost s else s

/-- Synchronous part of `resize` (`use-pty.ts` lines 92-96): no-op without a
session id, otherwise issue `ptyResize`. -/
def resize (s : PtyState) (cols rows : Nat) : PtyState × Option OutboundCall :=
  match s.sessionIdRef with
  | none => (s, none)
  | some id => (s, some (.ptyResize id cols rows))

/-- The `.then` continuation of the `ptyResize` command (`use-pty.ts` lines
97-104), identical to the write handler. -/
def resizeResponse (s : PtyState) (r : CmdResult) : PtyState :=
  match r with
  | .ok => s
  | .err e => if e.type = "SessionNotFound" then handleSessionLost s else s

/-- `kill` (`use-pty.ts` lines 109-119): no-op without a session id;
otherwise issue `ptyKill` and, whatever the remote result `r` is (it is only
logged on failure), run `handleSessionLost`. -/
def kill (s : PtyState) (r : CmdResult) : PtyState × Option OutboundCall :=
  match s.sessionIdRef with
  | none => (s, none)
  | some id =>
      match r with
      | .ok => (handleSessionLost s, some (.ptyKill id))
      | .err _ => (handleSessionLost s, some (.ptyKill id))

/-! Pending-output buffer and writer attachment, from `usePtyConnection`
(`writeRef` / `pendingOutputRef` and the flush effect). -/

/-- Buffer-side state of `usePtyConnection`: whether `writeRef.current` is
non-null, and the `pendingOutputRef` queue of decoded fragments. -/
structure BufState where
  writerAttached : Bool
  pending : List String
deriving DecidableEq, Repr

/-- Initial buffer state: no writer, empty queue. -/
def initBuf : BufState := { writerAttached := false, pending := [] }

/-- The `onData` body of `usePtyConnection` after decoding (lines 64-75):
if a writer is attached the fragment is written directly, otherwise it is
pushed onto the pending queue. Returns the new state and the text written
to the writer now, if any. -/
def onDecoded (s : BufState) (d : String) : BufState × Option String :=
  if s.writerAttached then (s, some d)
  else ({ s with pending := s.pending ++ [d] }, none)

/-- Feed a list of decoded fragments in order; collect the writes delivered
to the writer. -/
def runOutputs (s : BufState) (ds : List String) : BufState × List String :=
  match ds with
  | [] => (s, [])
  | d :: rest =>
      let r := onDecoded s d
      let r2 := runOutputs r.1 rest
      (r2.1, r.2.toList ++ r2.2)

/-- The flush effect of `usePtyConnection` (lines 84-91) when a non-null
writer is installed: mark the writer attached; if `pending.length > 0`,
join the queue into one string, clear the queue, and write that string.
Returns the new state and the single flush write, if one happened. -/
def attachWriter (s : BufState) : BufState × Option String :=
  if 0 < s.pending.length then
    ({ writerAttached := true, pending := [] }, some (String.join s.pending))
  else ({ s with writerAttached := true }, none)

/-! Auto-spawn retry logic of `usePtyConnection` (lines 93-115). -/

/-- `MAX_SPAWN_RETRIES` in `usePtyConnection`. -/
def MAX_SPAWN_RETRIES : Nat := 3

/-- Combined state for the auto-spawn logic: the session state of `usePty`
plus the two refs driving auto-spawn, `spawnedRef` and `spawnRetryRef`. -/
structure ConnState where
  pty : PtyState
  spawned : Bool
  spawnRetry : Nat
deriving DecidableEq, Repr

/-- Initial combined state: store defaults, `useRef(false)`, `useRef(0)`. -/
def initConn : ConnState :=
  { pty := initState, spawned := false, spawnRetry := 0 }

/-- How one `ptySpawn(...)` call observed by the auto-spawn effect ends.
`ok`: the command resolves with a session id, the continuation sets
`connected`, the promise resolves (`spawnedRef` stays `true`). `resultErr`:
the command resolves with an error result, the continuation sets status
`error`, and the promise still RESOLVES — the effect's `.catch` does not
run, so `spawnedRef` stays `true` and the counter is untouched. `rejected`:
the awaited command throws, so the continuation after the `await` never
runs (the status stays at the `connecting` set on entry) and the `.catch`
runs: `spawnedRef := false`, `spawnRetryRef` incremented. -/
inductive SpawnOutcome
  | ok (id : String)
  | resultErr (message : String)
  | rejected
deriving DecidableEq, Repr

/-- Things that can happen to the auto-spawn state: a run of the auto-spawn
effect (with the current `isReady` and the outcome of the spawn call it may
start), or an `Exit` channel event, whose handler in `usePty` clears the
session state and whose `onExit` callback in `usePtyConnection` (lines
76-80) resets `spawnedRef` — and nothing else: no transition ever resets
`spawnRetryRef`. -/
inductive AutoInput
  | effect (isReady : Bool) (o : SpawnOutcome)
  | exitEvent (code : Option Int)

/-- One step of the auto-spawn logic. An effect run attempts a spawn only
when `isReady && !spawnedRef.current && spawnRetryRef.current <
MAX_SPAWN_RETRIES`; an attempt sets `spawnedRef := true` and runs `spawn`,
whose first action is `spawnStart` (status `connecting`) and whose end is
given by the outcome as described on `SpawnOutcome`. Returns the new state
and whether a spawn was attempted. -/
def autoStep (s : ConnState) (i : AutoInput) : ConnState × Bool :=
  match i with
  | .effect isReady o =>
      if isReady && !s.spawned && decide (s.spawnRetry < MAX_SPAWN_RETRIES) then
        match o with
        | .ok id =>
            ({ pty := spawnResolve (spawnStart s.pty) (SpawnResult.ok id),
               spawned := true, spawnRetry := s.spawnRetry }, true)
        | .resultErr m =>
            ({ pty := spawnResolve (spawnStart s.pty) (SpawnResult.err m),
               spawned := true, spawnRetry := s.spawnRetry }, true)
        | .rejected =>
            ({ pty := spawnStart s.pty,
               spawned := false, spawnRetry := s.spawnRetry + 1 }, true)
      else (s, false)
  | .exitEvent code =>
      ({ s with pty := (channelOnMessage s.pty (PtyEvent.Exit code)).state,
                spawned := false }, false)

/-- 1 when the input is an effect run whose attempt (the Bool) ended in a
promise rejection — the only failure mode the retry counter counts. -/
def isRejectedAttempt : AutoInput → Bool → Nat
  | .effect _ .rejected, true => 1
  | _, _ => 0

/-- Run a trace of auto-spawn inputs; count the attempts that ended in a
promise rejection. -/
def autoRun (s : ConnState) (is : List AutoInput) : ConnState × Nat :=
  match is with
  | [] => (s, 0)
  | i :: rest =>
      let r := autoStep s i
      let r2 := autoRun r.1 rest
      (r2.1, isRejectedAttempt i r.2 + r2.2)

/-- The trace of three auto-spawn effect runs whose spawn calls all
reject. -/
def rejectedThrice : List AutoInput :=
  [AutoInput.effect true SpawnOutcome.rejected,
   AutoInput.effect true SpawnOutcome.rejected,
   AutoInput.effect true SpawnOutcome.rejected]

/-! Quiescent-point step relation over the session state: one constructor
per handler / continuation of `use-pty.ts`, used for the state invariant. -/

/-- One quiescent-point transition of the session state: a channel event
handler, either half of `spawn`, a write/resize response continuation, or
`kill`. The `spawnConnecting` constructor carries the usage constraint of
this repository (both `TerminalPanel` and `usePtyConnection` gate spawning
behind `spawnedRef`, so `spawn` is only initiated when no session id is
held). -/
inductive SessionStep : PtyState → PtyState → Prop
  | event (s : PtyState) (e : PtyEvent) :
      SessionStep s (channelOnMessage s e).state
  | spawnConnecting (s : PtyState) (h : s.sessionId = none)
      (h2 : s.sessionIdRef = none) :
      SessionStep s (spawnStart s)
  | spawnDone (s : PtyState) (r : SpawnResult) :
      SessionStep s (spawnResolve s r)
  | writeResp (s : PtyState) (r : CmdResult) :
      SessionStep s (writeResponse s r)
  | resizeResp (s : PtyState) (r : CmdResult) :
      SessionStep s (resizeResponse s r)
  | killed (s : PtyState) (r : CmdResult) :
      SessionStep s (kill s r).1

/-- States reachable from the initial state through quiescent-point
transitions. -/
inductive Reachable : PtyState → Prop
  | init : Reachable initState
  | step {s s2 : PtyState} : Reachable s → SessionStep s s2 → Reachable s2

end Pty

/-- Claim C1, code behavior at the failing input: when an `Exit` event is
fully processed before the spawn call resolves with success (id `s1`), the
spawn-success handler of `use-pty.ts` still runs unconditionally — there is
no "already exited" flag — so the final state is `connected` with
`sessionId == some "s1"`, not `disconnected` with `sessionId == null` as the
claim requires. -/
theorem C1_exit_race_code_behavior :
    Pty.spawnRun Pty.initState [Pty.PtyEvent.Exit (some 1)]
        (Pty.SpawnResult.ok "s1") =
      { sessionId := some "s1", connectionStatus := Pty.ConnectionStatus.connected,
        sessionIdRef := some "s1" } := by
  rfl

/-- Claim C2, code behavior at the failing input: when an `Error` event is
fully processed before the spawn call resolves with success, the success
continuation still sets status `connected`, so the late success overwrites
the earlier `error` — the final status is `connected`, not `error` as the
claim requires. -/
theorem C2_error_race_code_behavior :
    Pty.spawnRun Pty.initState [Pty.PtyEvent.Error "boom"]
        (Pty.SpawnResult.ok "s1") =
      { sessionId := some "s1", connectionStatus := Pty.ConnectionStatus.connected,
        sessionIdRef := some "s1" } := by
  rfl

namespace Pty

/-- While no writer is attached, feeding decoded fragments delivers nothing
and only appends to the pending queue in arrival order. -/
theorem runOutputs_detached (ds : List String) (s : BufState)
    (h : s.writerAttached = false) :
    runOutputs s ds =
      ({ writerAttached := false, pending := s.pending ++ ds }, []) := by
  induction ds generalizing s with
  | nil =>
      cases s with
      | mk w p => simp_all [runOutputs]
  | cons d rest ih =>
      simp only [runOutputs, onDecoded, h, Bool.false_eq_true, if_false]
      rw [ih { writerAttached := false, pending := s.pending ++ [d] } rfl]
      simp

/-- Rejected auto-spawn attempts in any trace are bounded by the retries
the counter still allows, because every attempt requires
`spawnRetry < MAX_SPAWN_RETRIES`, every rejection increments the counter,
and no transition ever decrements it. -/
theorem autoRun_rejected_le (is : List AutoInput) (s : ConnState) :
    (autoRun s is).2 ≤ MAX_SPAWN_RETRIES - s.spawnRetry := by
  induction is generalizing s with
  | nil => simp [autoRun]
  | cons i rest ih =>
      cases i with
      | exitEvent code =>
          simpa [autoRun, autoStep, isRejectedAttempt] using
            ih { s with pty := (channelOnMessage s.pty (PtyEvent.Exit code)).state,
                        spawned := false }
      | effect ready o =>
          by_cases hg : (ready && !s.spawned && decide (s.spawnRetry < MAX_SPAWN_RETRIES)) = true
          · have hlt : s.spawnRetry < MAX_SPAWN_RETRIES := by
              simp only [Bool.and_eq_true, decide_eq_true_eq] at hg
              exact hg.2
            cases o with
            | ok id =>
                have hih := ih { pty := spawnResolve (spawnStart s.pty) (SpawnResult.ok id),
                                 spawned := true, spawnRetry := s.spawnRetry }
                simp only [autoRun, autoStep, isRejectedAttempt, hg, if_true] at hih ⊢
                simpa using hih
            | resultErr m =>
                have hih := ih { pty := spawnResolve (spawnStart s.pty) (SpawnResult.err m),
                                 spawned := true, spawnRetry := s.spawnRetry }
                simp only [autoRun, autoStep, isRejectedAttempt, hg, if_true] at hih ⊢
                simpa using hih
            | rejected =>
                have hih := ih { pty := spawnStart s.pty,
                                 spawned := false, spawnRetry := s.spawnRetry + 1 }
                simp only [autoRun, autoStep, isRejectedAttempt, hg, if_true] at hih ⊢
                simp only [MAX_SPAWN_RETRIES] at *
                omega
          · have hih := ih s
            simp only [autoRun, autoStep, isRejectedAttempt, hg, if_false] at hih ⊢
            cases o <;> simpa using hih

end Pty

/-- Claim C3, counterexample: after a successful spawn (state `connected`,
id `s1`), the `Error`-event handler sets status `error` but leaves the
non-null `sessionId` in place — a quiescent point with `sessionId != null`
and a status other than `connected`, refuting the claimed invariant. -/
theorem C3_invariant_counterexample :
    ((Pty.channelOnMessage
        (Pty.spawnResolve (Pty.spawnStart Pty.initState) (Pty.SpawnResult.ok "s1"))
        (Pty.PtyEvent.Error "boom")).state.sessionId = some "s1") ∧
    (Pty.channelOnMessage
        (Pty.spawnResolve (Pty.spawnStart Pty.initState) (Pty.SpawnResult.ok "s1"))
        (Pty.PtyEvent.Error "boom")).state.connectionStatus ≠
      Pty.ConnectionStatus.connected := by
  constructor
  · rfl
  · intro h
    exact absurd h (by decide)

/-- Claim C3 (amended): at every reachable quiescent point (with spawn only
initiated when no session id is held, as both call sites of this repository
guarantee via `spawnedRef`), `sessionId != null` implies `connectionStatus`
is `connected` or `error` — not the claimed `connected` alone, because the
`Error`-event handler and a spawn-call failure set status `error` without
clearing the session id. -/
theorem C3_invariant_amended (s : Pty.PtyState) (h : Pty.Reachable s) :
    s.sessionId ≠ none →
      s.connectionStatus = Pty.ConnectionStatus.connected ∨
      s.connectionStatus = Pty.ConnectionStatus.error := by
  induction h with
  | init => intro hid; exact absurd rfl hid
  | @step t u hr hstep ih =>
      cases hstep with
      | event e =>
          cases e with
          | Output d => exact ih
          | Exit c =>
              intro hid
              simp [Pty.channelOnMessage] at hid
          | Error m => intro _; right; rfl
      | spawnConnecting ht ht2 =>
          intro hid
          simp [Pty.spawnStart, ht] at hid
      | spawnDone r =>
          cases r with
          | ok id => intro _; left; rfl
          | err m => intro _; right; rfl
      | writeResp r =>
          cases r with
          | ok => exact ih
          | err e =>
              by_cases he : e.type = "SessionNotFound"
              · intro hid
                simp [Pty.writeResponse, he, Pty.handleSessionLost] at hid
              · simpa [Pty.writeResponse, he] using ih
      | resizeResp r =>
          cases r with
          | ok => exact ih
          | err e =>
              by_cases he : e.type = "SessionNotFound"
              · intro hid
                simp [Pty.resizeResponse, he, Pty.handleSessionLost] at hid
              · simpa [Pty.resizeResponse, he] using ih
      | killed r =>
          cases ht : t.sessionIdRef with
          | none =>
              cases r <;> simpa [Pty.kill, ht] using ih
          | some id =>
              cases r with
              | ok =>
                  intro hid
                  simp [Pty.kill, ht, Pty.handleSessionLost] at hid
              | err e =>
                  intro hid
                  simp [Pty.kill, ht, Pty.handleSessionLost] at hid

/-- Witness for the amended C3 invariant at a concrete reachable state: the
state after spawn succeeds with id `s1`. -/
theorem C3_invariant_amended_witness :
    ({ sessionId := some "s1", connectionStatus := Pty.ConnectionStatus.connected,
       sessionIdRef := some "s1" } : Pty.PtyState).connectionStatus =
        Pty.ConnectionStatus.connected ∨
    ({ sessionId := some "s1", connectionStatus := Pty.ConnectionStatus.connected,
       sessionIdRef := some "s1" } : Pty.PtyState).connectionStatus =
        Pty.ConnectionStatus.error :=
  C3_invariant_amended _
    (Pty.Reachable.step
      (Pty.Reachable.step Pty.Reachable.init
        (Pty.SessionStep.spawnConnecting Pty.initState rfl rfl))
      (Pty.SessionStep.spawnDone (Pty.spawnStart Pty.initState)
        (Pty.SpawnResult.ok "s1")))
    (by decide)

/-- Claim C4: fragments decoded while no writer is attached are buffered in
arrival order with nothing delivered; attaching the writer delivers exactly
one write equal to the concatenation of the fragments, leaves the buffer
empty, and any subsequent fragment is delivered directly without
buffering. -/
theorem C4_buffer_flush (frags : List String) (h : frags ≠ []) (d : String) :
    (Pty.runOutputs Pty.initBuf frags).2 = [] ∧
    (Pty.runOutputs Pty.initBuf frags).1.pending = frags ∧
    (Pty.attachWriter (Pty.runOutputs Pty.initBuf frags).1).2 =
      some (String.join frags) ∧
    (Pty.attachWriter (Pty.runOutputs Pty.initBuf frags).1).1.pending = [] ∧
    Pty.onDecoded (Pty.attachWriter (Pty.runOutputs Pty.initBuf frags).1).1 d =
      ((Pty.attachWriter (Pty.runOutputs Pty.initBuf frags).1).1, some d) := by
  rw [Pty.runOutputs_detached frags Pty.initBuf rfl]
  have hf : 0 < frags.length := List.length_pos.mpr h
  refine ⟨rfl, by simp [Pty.initBuf], ?_, ?_, ?_⟩
  · simp [Pty.attachWriter, Pty.initBuf, hf]
  · simp [Pty.attachWriter, Pty.initBuf, hf]
  · simp [Pty.attachWriter, Pty.initBuf, hf, Pty.onDecoded]

/-- Witness for C4 at the spec's own scenario: fragments `a`, `b` buffered,
then the writer attaches and receives `ab` as a single flush. -/
theorem C4_buffer_flush_witness :
    (Pty.runOutputs Pty.initBuf ["a", "b"]).2 = [] ∧
    (Pty.runOutputs Pty.initBuf ["a", "b"]).1.pending = ["a", "b"] ∧
    (Pty.attachWriter (Pty.runOutputs Pty.initBuf ["a", "b"]).1).2 =
      some (String.join ["a", "b"]) ∧
    (Pty.attachWriter (Pty.runOutputs Pty.initBuf ["a", "b"]).1).1.pending = [] ∧
    Pty.onDecoded (Pty.attachWriter (Pty.runOutputs Pty.initBuf ["a", "b"]).1).1 "c" =
      ((Pty.attachWriter (Pty.runOutputs Pty.initBuf ["a", "b"]).1).1, some "c") :=
  C4_buffer_flush ["a", "b"] (by simp) "c"

/-- Claim C5: `kill` with a session id held always ends `disconnected` with
both the store id and the ref cleared, whether the remote `ptyKill` call
returns success or failure. -/
theorem C5_kill_always_disconnects (s : Pty.PtyState) (id : String)
    (h : s.sessionIdRef = some id) (r : Pty.CmdResult) :
    (Pty.kill s r).1.connectionStatus = Pty.ConnectionStatus.disconnected ∧
    (Pty.kill s r).1.sessionId = none ∧
    (Pty.kill s r).1.sessionIdRef = none ∧
    (Pty.kill s r).2 = some (Pty.OutboundCall.ptyKill id) := by
  cases r <;> simp [Pty.kill, h, Pty.handleSessionLost]

/-- Witness for C5: killing the connected session `s1` while the remote
call fails still disconnects and clears the id. -/
theorem C5_kill_always_disconnects_witness :
    (Pty.kill
        { sessionId := some "s1", connectionStatus := Pty.ConnectionStatus.connected,
          sessionIdRef := some "s1" }
        (Pty.CmdResult.err { type := "Io", message := "gone" })).1.connectionStatus =
      Pty.ConnectionStatus.disconnected ∧
    (Pty.kill
        { sessionId := some "s1", connectionStatus := Pty.ConnectionStatus.connected,
          sessionIdRef := some "s1" }
        (Pty.CmdResult.err { type := "Io", message := "gone" })).1.sessionId = none ∧
    (Pty.kill
        { sessionId := some "s1", connectionStatus := Pty.ConnectionStatus.connected,
          sessionIdRef := some "s1" }
        (Pty.CmdResult.err { type := "Io", message := "gone" })).1.sessionIdRef = none ∧
    (Pty.kill
        { sessionId := some "s1", connectionStatus := Pty.ConnectionStatus.connected,
          sessionIdRef := some "s1" }
        (Pty.CmdResult.err { type := "Io", message := "gone" })).2 =
      some (Pty.OutboundCall.ptyKill "s1") :=
  C5_kill_always_disconnects _ "s1" rfl _

/-- Claim C6: a `SessionNotFound` error response to a write or resize call
yields `disconnected` with `sessionId == null`; any other error response
leaves the state exactly unchanged. -/
theorem C6_session_not_found_handling (s : Pty.PtyState) (e : Pty.CmdError) :
    (e.type = "SessionNotFound" →
      (Pty.writeResponse s (Pty.CmdResult.err e)).connectionStatus =
          Pty.ConnectionStatus.disconnected ∧
      (Pty.writeResponse s (Pty.CmdResult.err e)).sessionId = none ∧
      (Pty.resizeResponse s (Pty.CmdResult.err e)).connectionStatus =
          Pty.ConnectionStatus.disconnected ∧
      (Pty.resizeResponse s (Pty.CmdResult.err e)).sessionId = none) ∧
    (e.type ≠ "SessionNotFound" →
      Pty.writeResponse s (Pty.CmdResult.err e) = s ∧
      Pty.resizeResponse s (Pty.CmdResult.err e) = s) := by
  constructor
  · intro he
    simp [Pty.writeResponse, Pty.resizeResponse, he, Pty.handleSessionLost]
  · intro he
    simp [Pty.writeResponse, Pty.resizeResponse, he]

/-- Witness for C6: a `SessionNotFound` write error on the connected session
`s1` disconnects, while an `Io` error leaves it untouched. -/
theorem C6_session_not_found_handling_witness :
    ((Pty.writeResponse
        { sessionId := some "s1", connectionStatus := Pty.ConnectionStatus.connected,
          sessionIdRef := some "s1" }
        (Pty.CmdResult.err { type := "SessionNotFound", message := "gone" })).connectionStatus =
      Pty.ConnectionStatus.disconnected ∧
      (Pty.writeResponse
        { sessionId := some "s1", connectionStatus := Pty.ConnectionStatus.connected,
          sessionIdRef := some "s1" }
        (Pty.CmdResult.err { type := "SessionNotFound", message := "gone" })).sessionId = none ∧
      (Pty.resizeResponse
        { sessionId := some "s1", connectionStatus := Pty.ConnectionStatus.connected,
          sessionIdRef := some "s1" }
        (Pty.CmdResult.err { type := "SessionNotFound", message := "gone" })).connectionStatus =
      Pty.ConnectionStatus.disconnected ∧
      (Pty.resizeResponse
        { sessionId := some "s1", connectionStatus := Pty.ConnectionStatus.connected,
          sessionIdRef := some "s1" }
        (Pty.CmdResult.err { type := "SessionNotFound", message := "gone" })).sessionId = none) ∧
    (Pty.writeResponse
        { sessionId := some "s1", connectionStatus := Pty.ConnectionStatus.connected,
          sessionIdRef := some "s1" }
        (Pty.CmdResult.err { type := "Io", message := "flaky" }) =
      { sessionId := some "s1", connectionStatus := Pty.ConnectionStatus.connected,
        sessionIdRef := some "s1" } ∧
      Pty.resizeResponse
        { sessionId := some "s1", connectionStatus := Pty.ConnectionStatus.connected,
          sessionIdRef := some "s1" }
        (Pty.CmdResult.err { type := "Io", message := "flaky" }) =
      { sessionId := some "s1", connectionStatus := Pty.ConnectionStatus.connected,
        sessionIdRef := some "s1" }) :=
  ⟨(C6_session_not_found_handling _ _).1 rfl,
   (C6_session_not_found_handling _ _).2 (by decide)⟩

/-- Claim C7, counterexample: after three auto-spawn attempts whose spawn
calls all reject, the retry bound is reached — and the connection status is
`connecting`, not the claimed `error` (a rejection bypasses the
status-setting continuation after the `await`, leaving the `connecting` set
on entry); and a further effect run — the closest thing the code has to
"the caller explicitly requests again" — neither attempts a spawn nor
resets the retry counter: no code path ever resets `spawnRetryRef`,
refuting the claimed reset on each new spawn request. -/
theorem C7_retry_counterexample :
    (Pty.autoRun Pty.initConn Pty.rejectedThrice).2 = 3 ∧
    (Pty.autoRun Pty.initConn Pty.rejectedThrice).1.spawnRetry = 3 ∧
    (Pty.autoRun Pty.initConn Pty.rejectedThrice).1.pty.connectionStatus =
      Pty.ConnectionStatus.connecting ∧
    (Pty.autoRun Pty.initConn Pty.rejectedThrice).1.pty.connectionStatus ≠
      Pty.ConnectionStatus.error ∧
    Pty.autoStep (Pty.autoRun Pty.initConn Pty.rejectedThrice).1
        (Pty.AutoInput.effect true (Pty.SpawnOutcome.ok "s1")) =
      ((Pty.autoRun Pty.initConn Pty.rejectedThrice).1, false) := by
  decide

/-- Claim C7 (amended): in any trace of auto-spawn effect runs and exit
notifications starting from the fresh refs, at most `MAX_SPAWN_RETRIES = 3`
attempts end in promise rejection — the only failure mode that re-enables
auto-spawn and increments the counter; the counter never decreases and is
never reset by any later request (only remounting starts over); once it has
reached the bound an effect run attempts nothing and changes nothing; every
attempt re-enters the `connecting` state (spawn begins with
`setConnectionStatus('connecting')`); a rejected attempt leaves the status
at that `connecting`, not `error`; and an attempt whose command resolves
with an error result sets status `error` but keeps `spawnedRef` true with
the counter untouched, so it is never auto-retried. -/
theorem C7_retry_bound_amended (trace : List Pty.AutoInput)
    (s s2 : Pty.ConnState) (i : Pty.AutoInput) (ready : Bool)
    (o : Pty.SpawnOutcome) (t : Pty.PtyState) (m : String)
    (hs : Pty.MAX_SPAWN_RETRIES ≤ s2.spawnRetry) :
    (Pty.autoRun Pty.initConn trace).2 ≤ Pty.MAX_SPAWN_RETRIES ∧
    s.spawnRetry ≤ (Pty.autoStep s i).1.spawnRetry ∧
    Pty.autoStep s2 (Pty.AutoInput.effect ready o) = (s2, false) ∧
    (Pty.spawnStart t).connectionStatus = Pty.ConnectionStatus.connecting ∧
    ((Pty.autoStep s (Pty.AutoInput.effect true Pty.SpawnOutcome.rejected)).2 =
        true →
      (Pty.autoStep s
          (Pty.AutoInput.effect true Pty.SpawnOutcome.rejected)).1.pty.connectionStatus =
        Pty.ConnectionStatus.connecting) ∧
    ((Pty.autoStep s
        (Pty.AutoInput.effect true (Pty.SpawnOutcome.resultErr m))).2 = true →
      (Pty.autoStep s
          (Pty.AutoInput.effect true
            (Pty.SpawnOutcome.resultErr m))).1.pty.connectionStatus =
        Pty.ConnectionStatus.error ∧
      (Pty.autoStep s
          (Pty.AutoInput.effect true
            (Pty.SpawnOutcome.resultErr m))).1.spawned = true ∧
      (Pty.autoStep s
          (Pty.AutoInput.effect true
            (Pty.SpawnOutcome.resultErr m))).1.spawnRetry = s.spawnRetry) := by
  refine ⟨?_, ?_, ?_, rfl, ?_, ?_⟩
  · simpa [Pty.initConn] using Pty.autoRun_rejected_le trace Pty.initConn
  · cases i with
    | exitEvent code => simp [Pty.autoStep]
    | effect r f =>
        simp only [Pty.autoStep]
        split
        · cases f <;> simp
        · simp
  · have hdec : decide (s2.spawnRetry < Pty.MAX_SPAWN_RETRIES) = false := by
      simp [Nat.not_lt.mpr hs]
    simp [Pty.autoStep, hdec]
  · intro hatt
    by_cases hg : s.spawned = false ∧ s.spawnRetry < Pty.MAX_SPAWN_RETRIES
    · simp [Pty.autoStep, hg, Pty.spawnStart]
    · simp [Pty.autoStep, hg] at hatt
  · intro hatt
    by_cases hg : s.spawned = false ∧ s.spawnRetry < Pty.MAX_SPAWN_RETRIES
    · simp [Pty.autoStep, hg, Pty.spawnResolve, Pty.spawnStart]
    · simp [Pty.autoStep, hg] at hatt

/-- Witness for the amended C7: a counter already at the bound blocks any
further attempt, and the other conjuncts hold at concrete inputs, with the
rejected-attempt and error-result implications discharged at the fresh
state. -/
theorem C7_retry_bound_amended_witness :
    (Pty.autoRun Pty.initConn
        [Pty.AutoInput.effect true Pty.SpawnOutcome.rejected]).2 ≤
      Pty.MAX_SPAWN_RETRIES ∧
    Pty.initConn.spawnRetry ≤
      (Pty.autoStep Pty.initConn
        (Pty.AutoInput.effect true Pty.SpawnOutcome.rejected)).1.spawnRetry ∧
    Pty.autoStep { pty := Pty.initState, spawned := false, spawnRetry := 3 }
        (Pty.AutoInput.effect true (Pty.SpawnOutcome.ok "s1")) =
      ({ pty := Pty.initState, spawned := false, spawnRetry := 3 }, false) ∧
    (Pty.spawnStart Pty.initState).connectionStatus =
      Pty.ConnectionStatus.connecting ∧
    (Pty.autoStep Pty.initConn
        (Pty.AutoInput.effect true Pty.SpawnOutcome.rejected)).1.pty.connectionStatus =
      Pty.ConnectionStatus.connecting ∧
    ((Pty.autoStep Pty.initConn
        (Pty.AutoInput.effect true
          (Pty.SpawnOutcome.resultErr "boom"))).1.pty.connectionStatus =
        Pty.ConnectionStatus.error ∧
      (Pty.autoStep Pty.initConn
        (Pty.AutoInput.effect true
          (Pty.SpawnOutcome.resultErr "boom"))).1.spawned = true ∧
      (Pty.autoStep Pty.initConn
        (Pty.AutoInput.effect true
          (Pty.SpawnOutcome.resultErr "boom"))).1.spawnRetry =
        Pty.initConn.spawnRetry) := by
  have h := C7_retry_bound_amended
    [Pty.AutoInput.effect true Pty.SpawnOutcome.rejected] Pty.initConn
    { pty := Pty.initState, spawned := false, spawnRetry := 3 }
    (Pty.AutoInput.effect true Pty.SpawnOutcome.rejected) true
    (Pty.SpawnOutcome.ok "s1") Pty.initState "boom" (by decide)
  exact ⟨h.1, h.2.1, h.2.2.1, h.2.2.2.1,
    h.2.2.2.2.1 (by decide), h.2.2.2.2.2 (by decide)⟩

/-- Claim C8: `write` and `resize` called while no session id is held (the
code checks `sessionIdRef.current`, which mirrors the store's `sessionId`)
issue no outbound call and leave the state exactly unchanged. -/
theorem C8_write_resize_noop (s : Pty.PtyState) (h : s.sessionIdRef = none)
    (data : String) (cols rows : Nat) :
    Pty.write s data = (s, none) ∧ Pty.resize s cols rows = (s, none) := by
  simp [Pty.write, Pty.resize, h]

/-- Witness for C8: `write("x")` and `resize(80, 24)` on the initial
(disconnected) state make no outbound call. -/
theorem C8_write_resize_noop_witness :
    Pty.write Pty.initState "x" = (Pty.initState, none) ∧
    Pty.resize Pty.initState 80 24 = (Pty.initState, none) :=
  C8_write_resize_noop Pty.initState rfl "x" 80 24

/-- Claim C10: the `Output`-event branch of the channel handler is
independent of connection state: for every state — including the
disconnected, id-null state left by an earlier `Exit` — it passes the bytes
to `onData`, changes no session state, and triggers no exit callback. -/
theorem C10_output_delivery_state_independent (s : Pty.PtyState)
    (d : List Nat) :
    Pty.channelOnMessage s (Pty.PtyEvent.Output d) =
      { state := s, dataOut := some d, exitOut := none } := by
  rfl

namespace Pty

/-- State of the incremental byte codec used by `usePtyConnection` and
`TerminalPanel` (`new TextDecoder('utf-8', { fatal: false })` with
`decode(data, { stream: true })`). Modelled from the spec: `TextDecoder` is
a platform primitive, not code of this repository; this is the WHATWG
incremental UTF-8 decoder the spec's byte-codec contract (§4.1) refers to:
code point under construction, bytes needed and seen, and the
lower/upper continuation-byte boundaries. -/
structure Utf8DecState where
  codePoint : Nat
  bytesNeeded : Nat
  bytesSeen : Nat
  lowerBoundary : Nat
  upperBoundary : Nat
deriving DecidableEq, Repr

/-- Fresh decoder state (also what `reset` / constructing a new
`TextDecoder` on session exit restores). -/
def utf8Init : Utf8DecState :=
  { codePoint := 0, bytesNeeded := 0, bytesSeen := 0,
    lowerBoundary := 0x80, upperBoundary := 0xBF }

/-- Handle one byte when no multi-byte sequence is in progress: ASCII is
emitted directly, a lead byte opens a sequence with its boundaries, and
anything else is replaced inline with U+FFFD. -/
def utf8StartByte (b : Nat) : Utf8DecState × List Nat :=
  if b ≤ 0x7F then (utf8Init, [b])
  else if 0xC2 ≤ b ∧ b ≤ 0xDF then
    ({ codePoint := b % 32, bytesNeeded := 1, bytesSeen := 0,
       lowerBoundary := 0x80, upperBoundary := 0xBF }, [])
  else if 0xE0 ≤ b ∧ b ≤ 0xEF then
    ({ codePoint := b % 16, bytesNeeded := 2, bytesSeen := 0,
       lowerBoundary := if b = 0xE0 then 0xA0 else 0x80,
       upperBoundary := if b = 0xED then 0x9F else 0xBF }, [])
  else if 0xF0 ≤ b ∧ b ≤ 0xF4 then
    ({ codePoint := b % 8, bytesNeeded := 3, bytesSeen := 0,
       lowerBoundary := if b = 0xF0 then 0x90 else 0x80,
       upperBoundary := if b = 0xF4 then 0x8F else 0xBF }, [])
  else (utf8Init, [0xFFFD])

/-- One byte of incremental decoding. A continuation byte outside the
current boundaries emits U+FFFD and reprocesses the byte from a fresh
state; a completed sequence emits its code point. The function is total and
never produces an error value: malformed input is replaced, never
propagated. -/
def utf8DecodeByte (st : Utf8DecState) (b : Nat) : Utf8DecState × List Nat :=
  if st.bytesNeeded = 0 then utf8StartByte b
  else if st.lowerBoundary ≤ b ∧ b ≤ st.upperBoundary then
    (if st.bytesSeen + 1 = st.bytesNeeded then
      (utf8Init, [st.codePoint * 64 + b % 64])
    else
      ({ codePoint := st.codePoint * 64 + b % 64,
         bytesNeeded := st.bytesNeeded, bytesSeen := st.bytesSeen + 1,
         lowerBoundary := 0x80, upperBoundary := 0xBF }, []))
  else
    ((utf8StartByte b).1, 0xFFFD :: (utf8StartByte b).2)

/-- Incremental decoding of a chunk: fold the byte decoder, concatenating
outputs, carrying the state to the next chunk (stream mode). -/
def utf8DecodeBytes : Utf8DecState → List Nat → Utf8DecState × List Nat
  | st, [] => (st, [])
  | st, b :: bs =>
      let r := utf8DecodeByte st b
      let r2 := utf8DecodeBytes r.1 bs
      (r2.1, r.2 ++ r2.2)

/-- Stream decoding is chunk-boundary invariant: decoding `xs` then `ys`
from the carried state produces exactly the state and output of decoding
`xs ++ ys` in one chunk. -/
theorem utf8DecodeBytes_append (st : Utf8DecState) (xs ys : List Nat) :
    utf8DecodeBytes st (xs ++ ys) =
      ((utf8DecodeBytes (utf8DecodeBytes st xs).1 ys).1,
       (utf8DecodeBytes st xs).2 ++
         (utf8DecodeBytes (utf8DecodeBytes st xs).1 ys).2) := by
  induction xs generalizing st with
  | nil => simp [utf8DecodeBytes]
  | cons b bs ih => simp [utf8DecodeBytes, ih]

/-- Decoding the UTF-8 encoding of any Unicode scalar value from a fresh
state emits exactly that code point and returns to the fresh state. -/
theorem utf8_roundtrip (n : Nat)
    (hv : n < 0xD800 ∨ (0xDFFF < n ∧ n < 0x110000)) :
    utf8DecodeBytes utf8Init (utf8EncodeChar n) = (utf8Init, [n]) := by
  by_cases h1 : n < 0x80
  · have e1 : utf8EncodeChar n = [n] := by rw [utf8EncodeChar, if_pos h1]
    have ha : n ≤ 0x7F := by omega
    rw [e1]
    simp [utf8DecodeBytes, utf8DecodeByte, utf8StartByte, utf8Init, ha]
  · by_cases h2 : n < 0x800
    · have e1 : utf8EncodeChar n = [0xC0 + n / 64, 0x80 + n % 64] := by
        rw [utf8EncodeChar, if_neg h1, if_pos h2]
      have hb1a : ¬ (0xC0 + n / 64 ≤ 0x7F) := by omega
      have hb1b : 0xC2 ≤ 0xC0 + n / 64 := by omega
      have hb1c : 0xC0 + n / 64 ≤ 0xDF := by omega
      have hb2a : 0x80 ≤ 0x80 + n % 64 := by omega
      have hb2b : 0x80 + n % 64 ≤ 0xBF := by omega
      rw [e1]
      simp [utf8DecodeBytes, utf8DecodeByte, utf8StartByte, utf8Init,
            hb1a, hb1b, hb1c, hb2a, hb2b]
      omega
    · by_cases h3 : n < 0x10000
      · have e1 : utf8EncodeChar n =
            [0xE0 + n / 4096, 0x80 + (n / 64) % 64, 0x80 + n % 64] := by
          rw [utf8EncodeChar, if_neg h1, if_neg h2, if_pos h3]
        have hb1a : ¬ (0xE0 + n / 4096 ≤ 0x7F) := by omega
        have hb1b : ¬ (0xC2 ≤ 0xE0 + n / 4096 ∧ 0xE0 + n / 4096 ≤ 0xDF) := by
          omega
        have hb1c : 0xE0 ≤ 0xE0 + n / 4096 := by omega
        have hb1d : 0xE0 + n / 4096 ≤ 0xEF := by omega
        have hb3a : 0x80 ≤ 0x80 + n % 64 := by omega
        have hb3b : 0x80 + n % 64 ≤ 0xBF := by omega
        rw [e1]
        by_cases hq : n < 0x1000
        · have he : 0xE0 + n / 4096 = 0xE0 := by omega
          have hb2a : 0xA0 ≤ 0x80 + (n / 64) % 64 := by omega
          have hb2b : 0x80 + (n / 64) % 64 ≤ 0xBF := by omega
          simp [utf8DecodeBytes, utf8DecodeByte, utf8StartByte, utf8Init,
                hb1a, hb1b, hb1c, hb1d, he, hb2a, hb2b, hb3a, hb3b]
          omega
        · by_cases hd : 0xD000 ≤ n ∧ n < 0xE000
          · have he0 : ¬ (0xE0 + n / 4096 = 0xE0) := by omega
            have hed : 0xE0 + n / 4096 = 0xED := by omega
            have hsur : n < 0xD800 := by omega
            have hb2a : 0x80 ≤ 0x80 + (n / 64) % 64 := by omega
            have hb2b : 0x80 + (n / 64) % 64 ≤ 0x9F := by omega
            simp [utf8DecodeBytes, utf8DecodeByte, utf8StartByte, utf8Init,
                  hb1a, hb1b, hb1c, hb1d, he0, hed, hb2a, hb2b, hb3a, hb3b]
            omega
          · have he0 : ¬ (0xE0 + n / 4096 = 0xE0) := by omega
            have hed : ¬ (0xE0 + n / 4096 = 0xED) := by omega
            have hb2a : 0x80 ≤ 0x80 + (n / 64) % 64 := by omega
            have hb2b : 0x80 + (n / 64) % 64 ≤ 0xBF := by omega
            simp [utf8DecodeBytes, utf8DecodeByte, utf8StartByte, utf8Init,
                  hb1a, hb1b, hb1c, hb1d, he0, hed, hb2a, hb2b, hb3a, hb3b]
            omega
      · have h4 : n < 0x110000 := by omega
        have e1 : utf8EncodeChar n =
            [0xF0 + n / 0x40000, 0x80 + (n / 4096) % 64,
             0x80 + (n / 64) % 64, 0x80 + n % 64] := by
          rw [utf8EncodeChar, if_neg h1, if_neg h2, if_neg h3]
        have hb1a : ¬ (0xF0 + n / 0x40000 ≤ 0x7F) := by omega
        have hb1b : ¬ (0xC2 ≤ 0xF0 + n / 0x40000 ∧
            0xF0 + n / 0x40000 ≤ 0xDF) := by omega
        have hb1c : ¬ (0xE0 ≤ 0xF0 + n / 0x40000 ∧
            0xF0 + n / 0x40000 ≤ 0xEF) := by omega
        have hb1d : 0xF0 ≤ 0xF0 + n / 0x40000 := by omega
        have hb1e : 0xF0 + n / 0x40000 ≤ 0xF4 := by omega
        have hb3a : 0x80 ≤ 0x80 + (n / 64) % 64 := by omega
        have hb3b : 0x80 + (n / 64) % 64 ≤ 0xBF := by omega
        have hb4a : 0x80 ≤ 0x80 + n % 64 := by omega
        have hb4b : 0x80 + n % 64 ≤ 0xBF := by omega
        rw [e1]
        by_cases hq : n < 0x40000
        · have hf : 0xF0 + n / 0x40000 = 0xF0 := by omega
          have hb2a : 0x90 ≤ 0x80 + (n / 4096) % 64 := by omega
          have hb2b : 0x80 + (n / 4096) % 64 ≤ 0xBF := by omega
          simp [utf8DecodeBytes, utf8DecodeByte, utf8StartByte, utf8Init,
                hb1a, hb1b, hb1c, hb1d, hb1e, hf, hb2a, hb2b,
                hb3a, hb3b, hb4a, hb4b]
          omega
        · by_cases hr : 0x100000 ≤ n
          · have hf0 : ¬ (0xF0 + n / 0x40000 = 0xF0) := by omega
            have hf4 : 0xF0 + n / 0x40000 = 0xF4 := by omega
            have hb2a : 0x80 ≤ 0x80 + (n / 4096) % 64 := by omega
            have hb2b : 0x80 + (n / 4096) % 64 ≤ 0x8F := by omega
            simp [utf8DecodeBytes, utf8DecodeByte, utf8StartByte, utf8Init,
                  hb1a, hb1b, hb1c, hb1d, hb1e, hf0, hf4, hb2a, hb2b,
                  hb3a, hb3b, hb4a, hb4b]
            omega
          · have hf0 : ¬ (0xF0 + n / 0x40000 = 0xF0) := by omega
            have hf4 : ¬ (0xF0 + n / 0x40000 = 0xF4) := by omega
            have hb2a : 0x80 ≤ 0x80 + (n / 4096) % 64 := by omega
            have hb2b : 0x80 + (n / 4096) % 64 ≤ 0xBF := by omega
            simp [utf8DecodeBytes, utf8DecodeByte, utf8StartByte, utf8Init,
                  hb1a, hb1b, hb1c, hb1d, hb1e, hf0, hf4, hb2a, hb2b,
                  hb3a, hb3b, hb4a, hb4b]
            omega

end Pty

/-- Claim C9: the incremental decoder is total and fail-soft — a multi-byte
UTF-8 character split into two chunks decodes to exactly that character
once the second chunk arrives (any split of any scalar value's encoding,
with the decoder back in its fresh state), and malformed byte sequences are
replaced inline with U+FFFD and never propagated as an error: a lone 0xFF
yields the replacement character, and an aborted two-byte sequence
`0xC3 0x28` yields the replacement character followed by `(`, the stream
continuing. -/
theorem C9_decoder_incremental (n : Nat)
    (hv : n < 0xD800 ∨ (0xDFFF < n ∧ n < 0x110000))
    (c1 c2 : List Nat) (hs : Pty.utf8EncodeChar n = c1 ++ c2) :
    ((Pty.utf8DecodeBytes Pty.utf8Init c1).2 ++
        (Pty.utf8DecodeBytes (Pty.utf8DecodeBytes Pty.utf8Init c1).1 c2).2 =
          [n] ∧
      (Pty.utf8DecodeBytes (Pty.utf8DecodeBytes Pty.utf8Init c1).1 c2).1 =
        Pty.utf8Init) ∧
    Pty.utf8DecodeBytes Pty.utf8Init [0xFF] = (Pty.utf8Init, [0xFFFD]) ∧
    Pty.utf8DecodeBytes Pty.utf8Init [0xC3, 0x28] =
      (Pty.utf8Init, [0xFFFD, 0x28]) := by
  have h := Pty.utf8DecodeBytes_append Pty.utf8Init c1 c2
  rw [← hs, Pty.utf8_roundtrip n hv] at h
  rw [Prod.ext_iff] at h
  exact ⟨⟨h.2.symm, h.1.symm⟩, by decide, by decide⟩

/-- Witness for C9 at the character U+00E9 split between its two bytes:
`0xC3` alone emits nothing, the arrival of `0xA9` completes the character,
and the malformed examples decode to replacement characters. -/
theorem C9_decoder_incremental_witness :
    ((Pty.utf8DecodeBytes Pty.utf8Init [0xC3]).2 ++
        (Pty.utf8DecodeBytes (Pty.utf8DecodeBytes Pty.utf8Init [0xC3]).1
          [0xA9]).2 = [0xE9] ∧
      (Pty.utf8DecodeBytes (Pty.utf8DecodeBytes Pty.utf8Init [0xC3]).1
          [0xA9]).1 = Pty.utf8Init) ∧
    Pty.utf8DecodeBytes Pty.utf8Init [0xFF] = (Pty.utf8Init, [0xFFFD]) ∧
    Pty.utf8DecodeBytes Pty.utf8Init [0xC3, 0x28] =
      (Pty.utf8Init, [0xFFFD, 0x28]) :=
  C9_decoder_incremental 0xE9 (by decide) [0xC3] [0xA9] (by decide)
